import Mathlib

/-!
Verification of the half-edge Voronoi diagram typedef layer of opencamlib
(src/src/voronoi/voronoidiagram_graph.hpp) against its design specification.

The header declares the edge and face property records of the half-edge
diagram, the face status enum, and the handle typedefs; the incremental
builder (insertGenerator) and the edge classifier are declared in the
specification but their code is not part of this header, so they are
modelled from the specification where a claim needs them.
-/

namespace Ocl

/-- Model of the external Point class (point.hpp, geometry collaborator):
a 3-coordinate point. Coordinates are modelled as integers since no claim
involves coordinate arithmetic. -/
structure Point where
  x : Int
  y : Int
  z : Int
deriving DecidableEq, Repr

/-- Source: typedef boost adjacency_list_traits edge_descriptor HEEdge.
The boost descriptor is an untagged handle; modelled as a plain natural
number identifier. -/
abbrev HEEdge := Nat

/-- Source: typedef unsigned int HEFace. A plain untagged integer handle. -/
abbrev HEFace := Nat

/-- Model of a VoronoiGenerator pointer value (the header stores a raw
pointer VoronoiGenerator star in FaceProps; the pointee class is outside
this header). Distinct numbers model distinct pointer values. -/
abbrev VoronoiGeneratorPtr := Nat

/-- Source struct EdgeProps: each edge stores the next edge, the twin edge
and the face to which the edge belongs. Exactly these three fields appear
in the C++ struct. -/
structure EdgeProps where
  next : HEEdge
  twin : HEEdge
  face : HEFace
deriving DecidableEq, Repr

/-- Source default constructor EdgeProps(): the body is empty, so every
field keeps the indeterminate value already in memory; modelled by
threading the pre-existing memory content through unchanged. -/
def EdgeProps.ctorDefault (mem : EdgeProps) : EdgeProps := mem

/-- Source constructor EdgeProps(HEEdge n, HEFace f): assigns next and
face only; twin keeps the indeterminate value already in memory. -/
def EdgeProps.ctorNF (mem : EdgeProps) (n : HEEdge) (f : HEFace) : EdgeProps :=
  { mem with next := n, face := f }

/-- Source constructor EdgeProps(HEEdge n, HEEdge t, HEFace f): assigns
all three fields. -/
def EdgeProps.ctorNTF (_mem : EdgeProps) (n : HEEdge) (t : HEEdge) (f : HEFace) : EdgeProps :=
  { next := n, twin := t, face := f }

/-- Source enum VoronoiFaceStatus with exactly the two enumerators
INCIDENT and NONINCIDENT. -/
inductive VoronoiFaceStatus where
  | INCIDENT
  | NONINCIDENT
deriving DecidableEq, Repr

/-- Source struct FaceProps: face index idx, one boundary edge, the
generator Point, a raw pointer gen to a VoronoiGenerator, and the face
status. Exactly these five fields appear in the C++ struct. -/
structure FaceProps where
  idx : HEFace
  edge : HEEdge
  generator : Point
  gen : VoronoiGeneratorPtr
  status : VoronoiFaceStatus
deriving DecidableEq, Repr

/-- Source constructor FaceProps(HEEdge e, Point gen, VoronoiFaceStatus t):
assigns edge, generator and status; idx and the gen pointer keep the
indeterminate values already in memory. -/
def FaceProps.ctor (mem : FaceProps) (e : HEEdge) (g : Point) (t : VoronoiFaceStatus) : FaceProps :=
  { mem with edge := e, generator := g, status := t }

/-- Source operator lt of FaceProps: returns idx lt f.idx, comparing only
the face indices. -/
def FaceProps.ltb (a b : FaceProps) : Bool := a.idx < b.idx

/-- Modelled from the spec: the generator tagged value POINT(position),
SEGMENT(endpoint pair) or ARC(center, radius, angular span) of section 3;
the VoronoiGenerator class of the repository is not under src. -/
inductive Generator where
  | POINT (p : Point)
  | SEGMENT (p1 p2 : Point)
  | ARC (center : Point) (radius : Int) (a1 a2 : Int)
deriving DecidableEq, Repr

/-- Modelled from the spec: the reference point of a generator, used by
the locate step of insertGenerator to detect coincident generators. -/
def Generator.refPoint : Generator → Point
  | .POINT p => p
  | .SEGMENT p1 _ => p1
  | .ARC c _ _ _ => c

/-- Edge classification tags E1 to E10, from the Voronoi Edges comment of
the header (E1 to E4) and its trailing point-line-arc comment (E5 to E10). -/
inductive EdgeType where
  | E1
  | E2
  | E3
  | E4
  | E5
  | E6
  | E7
  | E8
  | E9
  | E10
deriving DecidableEq, Repr

/-- Modelled from the spec: the rows of the fixed classification table of
section 4.2 for a pair of generators; the arc rows carry the geometric
relation the table distinguishes. The classifier code is not under src. -/
inductive GenPair where
  | pointPoint
  | pointSegmentInterior
  | pointSegmentEndpoint
  | segmentSegment
  | arcPointInside
  | arcPointOutside
  | arcSegmentEndpoint
  | arcSegmentCrossing
  | arcArcNested
  | arcArcCrossing
deriving DecidableEq, Repr

/-- Modelled from the spec: classifyEdge implements the fixed table of
section 4.2, matched exhaustively over the closed row type. The classifier
code is not under src; only the table appears in the header comments. -/
def classifyEdge : GenPair → EdgeType
  | .pointPoint => .E1
  | .pointSegmentInterior => .E3
  | .pointSegmentEndpoint => .E2
  | .segmentSegment => .E4
  | .arcPointInside => .E5
  | .arcPointOutside => .E6
  | .arcSegmentEndpoint => .E7
  | .arcSegmentCrossing => .E8
  | .arcArcNested => .E9
  | .arcArcCrossing => .E10

/-- Modelled from the spec: the error kinds of section 7. -/
inductive VdError where
  | DegenerateInputError
  | UnsupportedGeneratorPairError
  | NumericalPrecisionError
  | TopologyInvariantViolation
deriving DecidableEq, Repr

/-- Vertex handle, modelled as a plain identifier like HEEdge. -/
abbrev HEVertex := Nat

/-- Modelled from the spec: the arena-backed graph state mutated by the
incremental builder (the HEDIGraph container is not under src). Edge and
face records are the source EdgeProps and FaceProps records, stored in
association lists keyed by their handles; incid records the source vertex
of each half edge. -/
structure VDState where
  verts : List HEVertex
  incid : List (HEVertex × HEEdge)
  edges : List (HEEdge × EdgeProps)
  faces : List (HEFace × FaceProps)
  nextEdgeId : Nat
  nextFaceId : Nat
deriving DecidableEq, Repr

/-- Look up the properties of a live edge handle. -/
def lookupEdge (g : VDState) (e : HEEdge) : Option EdgeProps :=
  (g.edges.find? (fun p => p.1 == e)).map Prod.snd

/-- Invariant 1 of section 3: twin twin e is e for every live half edge. -/
def twinInv (g : VDState) : Bool :=
  g.edges.all fun p =>
    match lookupEdge g p.2.twin with
    | some tp => tp.twin == p.1
    | none => false

/-- Bounded walk along next from edge e, checking that every traversed
edge belongs to face f and that the walk returns to the start edge within
the fuel bound (the bounded step count of section 4.1). -/
def faceWalk (g : VDState) (f : HEFace) (start : HEEdge) : Nat → HEEdge → Bool
  | 0, _ => false
  | k + 1, e =>
    match lookupEdge g e with
    | none => false
    | some ep => ep.face == f && (ep.next == start || faceWalk g f start k ep.next)

/-- Invariant 2 of section 3: following next from any half edge returns to
it after traversing the boundary of one face: every edge on the walk has
the same owning face and the walk closes within the edge count bound. -/
def nextInv (g : VDState) : Bool :=
  g.edges.all fun p => faceWalk g p.2.face p.1 (g.edges.length + 1) p.1

/-- Invariant 3 of section 3 (structural part): face handles are unique,
each face record carries its own handle as idx and exactly one generator,
its boundary edge is live and owned by the face, and every edge belongs to
a live face. -/
def faceInv (g : VDState) : Bool :=
  ((g.faces.map Prod.fst).dedup.length == g.faces.length) &&
  (g.faces.all fun p =>
    p.2.idx == p.1 &&
    match lookupEdge g p.2.edge with
    | some ep => ep.face == p.1
    | none => false) &&
  (g.edges.all fun p => g.faces.any fun q => q.1 == p.2.face)

/-- Invariant 4 of section 3: every live vertex is trivalent, with exactly
three incident half edges. -/
def trivalentInv (g : VDState) : Bool :=
  g.verts.all fun v => (g.incid.filter (fun p => p.1 == v)).length == 3

/-- Invariant 5 of section 3: every face status is NONINCIDENT. -/
def statusInv (g : VDState) : Bool :=
  g.faces.all fun p => p.2.status == VoronoiFaceStatus.NONINCIDENT

/-- The five data-model invariants of section 3 together. -/
def invariantsAll (g : VDState) : Bool :=
  twinInv g && nextInv g && faceInv g && trivalentInv g && statusInv g

/-- Modelled from the spec: step 6 resets all face statuses to
NONINCIDENT before the insertion commits. -/
def resetStatuses (g : VDState) : VDState :=
  { g with faces := g.faces.map fun p => (p.1, { p.2 with status := VoronoiFaceStatus.NONINCIDENT }) }

/-- Modelled from the spec: steps 1 to 5 of insertGenerator (section 4.3).
The precise locate and grow strategy is an implementation decision left
open by the spec (section 9 open question); it is instantiated here as:
the seed face is marked INCIDENT as the visited marker of step 2, the
deletion region stays empty for a well separated generator, and the stitch
step allocates one new face for the generator bounded by one fresh twinned
pair of half edges whose next links close the new boundary cycle. -/
def buildCandidate (g : VDState) (gen : Generator) : VDState × HEFace :=
  let marked :=
    match g.faces with
    | [] => ([] : List (HEFace × FaceProps))
    | p :: rest => (p.1, { p.2 with status := VoronoiFaceStatus.INCIDENT }) :: rest
  let f := g.nextFaceId
  let e1 := g.nextEdgeId
  let e2 := g.nextEdgeId + 1
  let newFp : FaceProps :=
    { idx := f, edge := e1, generator := gen.refPoint, gen := 0,
      status := VoronoiFaceStatus.INCIDENT }
  ({ g with
      faces := marked ++ [(f, newFp)],
      edges := g.edges ++
        [(e1, { next := e1, twin := e2, face := f }),
         (e2, { next := e2, twin := e1, face := f })],
      nextEdgeId := g.nextEdgeId + 2,
      nextFaceId := g.nextFaceId + 1 }, f)

/-- Modelled from the spec: insertGenerator (section 4.3). The locate step
fails with DegenerateInputError when the new generator coincides with an
existing one; otherwise the candidate built by steps 1 to 5 commits in
step 6 only when the five invariants are detected to hold after the
status reset, and on any failure the original graph is returned unchanged
(the rollback guarantee of sections 5 and 7). The returned pair carries
the call result and the caller visible graph after the call. -/
def insertGenerator (g : VDState) (gen : Generator) : Except VdError HEFace × VDState :=
  if g.faces.any (fun p => p.2.generator == gen.refPoint) then
    (Except.error VdError.DegenerateInputError, g)
  else if invariantsAll (resetStatuses (buildCandidate g gen).1) then
    (Except.ok (buildCandidate g gen).2, resetStatuses (buildCandidate g gen).1)
  else (Except.error VdError.TopologyInvariantViolation, g)

/-- The half-edge record of the data model in section 3 of the spec, for
comparison with the source EdgeProps: next, twin, owning face, and a
classification tag. -/
structure SpecEdgeRec where
  next : HEEdge
  twin : HEEdge
  face : HEFace
  tag : EdgeType
deriving DecidableEq, Repr

/-- Erasure of a spec half-edge record to the source EdgeProps record,
keeping the fields the source record actually stores. -/
def SpecEdgeRec.toEdgeProps (r : SpecEdgeRec) : EdgeProps :=
  { next := r.next, twin := r.twin, face := r.face }

/-- The generation-tagged handle of sections 4.1 and 9 of the spec, for
comparison with the source HEFace handle: an arena index together with a
generation counter. -/
structure GenHandle where
  index : Nat
  generation : Nat
deriving DecidableEq, Repr

/-- What the source handle typedef retains of a spec handle: HEFace is a
plain unsigned int, so only the index can be kept. -/
def GenHandle.toHEFace (h : GenHandle) : HEFace := h.index

/-- Modelled from the spec (section 9): the twin relation implicit in
handle arithmetic when twin half edges are allocated as an adjacent pair:
even handles pair with their successor, odd handles with their
predecessor. -/
def specTwinOf (h : HEEdge) : HEEdge :=
  if h % 2 == 0 then h + 1 else h - 1

/-! Concrete states and records used by witnesses and counterexamples. -/

/-- The empty diagram state. -/
def emptyVD : VDState := ⟨[], [], [], [], 0, 0⟩

/-- A point generator at the origin. -/
def genP0 : Generator := Generator.POINT ⟨0, 0, 0⟩

/-- A second, distinct point generator. -/
def genP1 : Generator := Generator.POINT ⟨1, 0, 0⟩

/-- The diagram after one committed insertion. -/
def vd1 : VDState := (insertGenerator emptyVD genP0).2

/-- A concrete face record. -/
def faceGenA : FaceProps := ⟨0, 0, ⟨0, 0, 0⟩, 0, VoronoiFaceStatus.NONINCIDENT⟩

/-- A face record agreeing with faceGenA on every field except the gen
pointer. -/
def faceGenB : FaceProps := ⟨0, 0, ⟨0, 0, 0⟩, 1, VoronoiFaceStatus.NONINCIDENT⟩

/-- A face record with index 1. -/
def faceIdx1 : FaceProps := ⟨1, 0, ⟨0, 0, 0⟩, 0, VoronoiFaceStatus.NONINCIDENT⟩

/-- A spec half-edge record tagged E1. -/
def specEdgeE1 : SpecEdgeRec := ⟨0, 1, 2, EdgeType.E1⟩

/-- A spec half-edge record identical to specEdgeE1 except for the tag. -/
def specEdgeE3 : SpecEdgeRec := ⟨0, 1, 2, EdgeType.E3⟩

/-- A generation-tagged handle with index 5, generation 0. -/
def handleGen0 : GenHandle := ⟨5, 0⟩

/-- A generation-tagged handle with index 5, generation 1. -/
def handleGen1 : GenHandle := ⟨5, 1⟩

/-- Arbitrary pre-existing memory content for a constructor call. -/
def memJunk : EdgeProps := ⟨11, 22, 33⟩

/-- A state whose single edge record, stored at handle 2, stores twin 7:
legal for the source record type, impossible under adjacent-pair handle
arithmetic. -/
def vdTwinEx : VDState := ⟨[], [], [(2, ⟨0, 7, 0⟩)], [], 0, 0⟩

/-! Helper lemmas shared by the claim theorems. -/

/-- When insertGenerator answers ok, the returned state passed the
invariant detection of step 6. -/
theorem insertGenerator_ok_invariants (g : VDState) (gen : Generator) (f : HEFace)
    (g' : VDState) (h : insertGenerator g gen = (Except.ok f, g')) :
    invariantsAll g' = true := by
  unfold insertGenerator at h
  split at h
  · simp at h
  · split at h
    next hinv =>
      rw [Prod.mk.injEq] at h
      rw [← h.2]
      exact hinv
    next hinv => simp at h

/-- When insertGenerator answers an error, the returned state is the
original graph. -/
theorem insertGenerator_error_state (g : VDState) (gen : Generator) (e : VdError)
    (g' : VDState) (h : insertGenerator g gen = (Except.error e, g')) :
    g' = g := by
  unfold insertGenerator at h
  split at h
  · rw [Prod.mk.injEq] at h
    exact h.2.symm
  · split at h
    · simp at h
    · rw [Prod.mk.injEq] at h
      exact h.2.symm

/-! The claims. -/

/-- Claim C1: for every half edge e that is live after any committed
insertion, following the twin reference twice returns e itself; formally,
whenever insertGenerator commits, the twin involution invariant holds of
the returned graph state. -/
theorem twin_twin_after_committed_insertion (g : VDState) (gen : Generator) (f : HEFace)
    (g' : VDState) (h : insertGenerator g gen = (Except.ok f, g')) :
    twinInv g' = true := by
  have h2 := insertGenerator_ok_invariants g gen f g' h
  simp only [invariantsAll, Bool.and_eq_true] at h2
  exact h2.1.1.1.1

/-- Witness for claim C1: inserting a point generator into the empty
diagram commits, and the committed state satisfies the twin involution. -/
theorem twin_twin_after_committed_insertion_witness :
    twinInv (insertGenerator emptyVD genP0).2 = true :=
  twin_twin_after_committed_insertion emptyVD genP0 0 (insertGenerator emptyVD genP0).2 rfl

/-- Claim C2: the face status field takes only the two values INCIDENT
and NONINCIDENT, and outside the dynamic extent of a single
insertGenerator call every face status is NONINCIDENT: starting from a
state where all statuses are NONINCIDENT, the state visible after any
insertGenerator call again has all statuses NONINCIDENT, so no external
caller observes INCIDENT. -/
theorem face_status_closed_and_nonincident (g : VDState) (gen : Generator)
    (h : statusInv g = true) :
    (∀ s : VoronoiFaceStatus,
      s = VoronoiFaceStatus.INCIDENT ∨ s = VoronoiFaceStatus.NONINCIDENT) ∧
    statusInv (insertGenerator g gen).2 = true := by
  refine ⟨fun s => by cases s <;> simp, ?_⟩
  unfold insertGenerator
  split
  · exact h
  · split
    next hinv =>
      simp only [invariantsAll, Bool.and_eq_true] at hinv
      exact hinv.2
    · exact h

/-- Witness for claim C2: after one committed insertion all statuses are
NONINCIDENT, and a further insertion (which transiently marks the seed
face and the new face INCIDENT) again leaves every status NONINCIDENT. -/
theorem face_status_closed_and_nonincident_witness :
    statusInv vd1 = true ∧ statusInv (insertGenerator vd1 genP1).2 = true :=
  ⟨by decide, (face_status_closed_and_nonincident vd1 genP1 (by decide)).2⟩

/-- Claim C3: insertGenerator is atomic: every call either commits with
all five data-model invariants holding of the returned state, or fails
with a recoverable error and returns a state equal to the input graph,
with vertex, edge and face counts and all handles unchanged. -/
theorem insertGenerator_atomic (g : VDState) (gen : Generator) :
    (∀ f g', insertGenerator g gen = (Except.ok f, g') → invariantsAll g' = true) ∧
    (∀ e g', insertGenerator g gen = (Except.error e, g') →
      g' = g ∧ g'.verts.length = g.verts.length ∧ g'.edges.length = g.edges.length ∧
      g'.faces.length = g.faces.length) := by
  constructor
  · intro f g' h
    exact insertGenerator_ok_invariants g gen f g' h
  · intro e g' h
    have hg := insertGenerator_error_state g gen e g' h
    subst hg
    exact ⟨rfl, rfl, rfl, rfl⟩

/-- Witness for claim C3: a committed insertion into the empty diagram
satisfies all five invariants, and a failing duplicate insertion returns
the graph unchanged. -/
theorem insertGenerator_atomic_witness :
    invariantsAll (insertGenerator emptyVD genP0).2 = true ∧
    (insertGenerator vd1 genP0).2 = vd1 :=
  ⟨(insertGenerator_atomic emptyVD genP0).1 0 (insertGenerator emptyVD genP0).2 rfl,
   ((insertGenerator_atomic vd1 genP0).2 VdError.DegenerateInputError
      (insertGenerator vd1 genP0).2 rfl).1⟩

/-- Claim C4 counterexample: the source face record does not consist of
one boundary half edge and exactly one generator: two records agreeing on
the index, the boundary edge, the generator point and the status but
differing in the second generator field (the raw VoronoiGenerator
pointer gen) are distinct face records. -/
theorem faceProps_two_generator_fields_counterexample :
    faceGenA.idx = faceGenB.idx ∧ faceGenA.edge = faceGenB.edge ∧
    faceGenA.generator = faceGenB.generator ∧ faceGenA.status = faceGenB.status ∧
    faceGenA ≠ faceGenB := by decide

/-- Claim C4 amended: each face record stores exactly one boundary half
edge but two generator fields, a Point generator and a raw pointer gen
into the open VoronoiGenerator hierarchy, together with an index and a
status; the three-argument constructor assigns edge, generator and
status, leaving both idx and the gen pointer at their pre-existing
values, and no closed three-alternative tagged variant is involved. -/
theorem faceProps_fields_amended :
    (∀ fp : FaceProps, fp = FaceProps.mk fp.idx fp.edge fp.generator fp.gen fp.status) ∧
    (∀ mem e p t, (FaceProps.ctor mem e p t).edge = e ∧
      (FaceProps.ctor mem e p t).generator = p ∧
      (FaceProps.ctor mem e p t).status = t ∧
      (FaceProps.ctor mem e p t).gen = mem.gen ∧
      (FaceProps.ctor mem e p t).idx = mem.idx) := by
  constructor
  · intro fp
    rfl
  · intro mem e p t
    exact ⟨rfl, rfl, rfl, rfl, rfl⟩

/-- Claim C5: classifyEdge implements the fixed table: point with point
gives E1, point with segment interior gives E3, point with segment
endpoint gives E2, and segment with segment gives E4, for all generator
inputs of those kinds (the closed row type enumerates them). -/
theorem classifyEdge_table :
    classifyEdge GenPair.pointPoint = EdgeType.E1 ∧
    classifyEdge GenPair.pointSegmentInterior = EdgeType.E3 ∧
    classifyEdge GenPair.pointSegmentEndpoint = EdgeType.E2 ∧
    classifyEdge GenPair.segmentSegment = EdgeType.E4 := by
  decide

/-- Claim C6 counterexample: the source half-edge record carries no
classification tag: two spec records that differ only in their tag erase
to the same source EdgeProps record, so the tag is not among the data a
source half-edge record carries. -/
theorem edgeProps_no_tag_counterexample :
    specEdgeE1.toEdgeProps = specEdgeE3.toEdgeProps ∧ specEdgeE1 ≠ specEdgeE3 := by decide

/-- Claim C6 amended: every half-edge record carries exactly three pieces
of data, the next reference, the twin reference and the owning face; the
E1 to E10 classification taxonomy appears only in header comments, and
every source record arises as the tag erasure of a spec record. -/
theorem edgeProps_three_fields_amended :
    (∀ e : EdgeProps, e = EdgeProps.mk e.next e.twin e.face) ∧
    (∀ e : EdgeProps, (SpecEdgeRec.mk e.next e.twin e.face EdgeType.E1).toEdgeProps = e) := by
  constructor
  · intro e
    rfl
  · intro e
    rfl

/-- Claim C7 counterexample: handles are not generation tagged: two
distinct generation-tagged handles over the same arena index map to the
same source HEFace handle, so a stale handle cannot be told apart from a
fresh one by the handle value the source uses. -/
theorem heface_no_generation_counterexample :
    handleGen0.toHEFace = handleGen1.toHEFace ∧ handleGen0 ≠ handleGen1 := by decide

/-- Claim C7 amended: the source handle types carry no generation: HEFace
is a plain unsigned integer index (and HEEdge an untagged descriptor), so
two generation-tagged handles are indistinguishable through the source
handle exactly when their indices agree, and stale handle use after
deallocation is not detected. -/
theorem heface_plain_index_amended :
    ∀ h h2 : GenHandle, h.toHEFace = h2.toHEFace ↔ h.index = h2.index :=
  fun _ _ => Iff.rfl

/-- Claim C8 counterexample: the twin relation is stored, not computed by
handle arithmetic: the three-argument source constructor stores twin 7 in
a record living at handle 2, while adjacent-pair handle arithmetic would
demand twin 3. -/
theorem twin_stored_not_arithmetic_counterexample :
    (EdgeProps.ctorNTF memJunk 0 7 0).twin = 7 ∧
    lookupEdge vdTwinEx 2 = some (EdgeProps.ctorNTF memJunk 0 7 0) ∧
    specTwinOf 2 = 3 ∧
    (EdgeProps.ctorNTF memJunk 0 7 0).twin ≠ specTwinOf 2 := by decide

/-- Claim C8 amended: each half-edge record stores its twin as a direct
reference field, assigned by the three-argument constructor or by later
mutation; the twin relation is not implicit in handle arithmetic, and a
live record may store a twin that adjacent-pair arithmetic on its own
handle would forbid. -/
theorem twin_stored_field_amended :
    (∀ mem n t f, (EdgeProps.ctorNTF mem n t f).twin = t) ∧
    (∃ h : HEEdge, ∃ e : EdgeProps, lookupEdge vdTwinEx h = some e ∧ e.twin ≠ specTwinOf h) := by
  constructor
  · intro mem n t f
    rfl
  · exact ⟨2, ⟨0, 7, 0⟩, by decide⟩

/-- Claim C9: the face ordering operator compares only the face index:
ltb holds exactly when the indices compare, it is irreflexive, asymmetric
and transitive, any two faces with distinct indices are comparable, and
the result is independent of the edge, generator, gen and status
fields. -/
theorem faceProps_ltb_by_idx :
    (∀ a b : FaceProps, a.ltb b = true ↔ a.idx < b.idx) ∧
    (∀ a : FaceProps, a.ltb a = false) ∧
    (∀ a b : FaceProps, a.ltb b = true → b.ltb a = false) ∧
    (∀ a b c : FaceProps, a.ltb b = true → b.ltb c = true → a.ltb c = true) ∧
    (∀ a b : FaceProps, a.idx ≠ b.idx → a.ltb b = true ∨ b.ltb a = true) ∧
    (∀ a b a2 b2 : FaceProps, a.idx = a2.idx → b.idx = b2.idx → a.ltb b = a2.ltb b2) := by
  refine ⟨?_, ?_, ?_, ?_, ?_, ?_⟩
  · intro a b
    simp [FaceProps.ltb]
  · intro a
    simp [FaceProps.ltb]
  · intro a b h
    exact decide_eq_false (Nat.lt_asymm (of_decide_eq_true h))
  · intro a b c h1 h2
    exact decide_eq_true (Nat.lt_trans (of_decide_eq_true h1) (of_decide_eq_true h2))
  · intro a b h
    rcases Nat.lt_or_gt_of_ne h with h1 | h1
    · exact Or.inl (decide_eq_true h1)
    · exact Or.inr (decide_eq_true h1)
  · intro a b a2 b2 h1 h2
    simp [FaceProps.ltb, h1, h2]

/-- Witness for claim C9: the comparability and asymmetry conjuncts at
two concrete face records with distinct indices. -/
theorem faceProps_ltb_by_idx_witness :
    (faceGenA.ltb faceIdx1 = true ∨ faceIdx1.ltb faceGenA = true) ∧
    (faceGenA.ltb faceIdx1 = true → faceIdx1.ltb faceGenA = false) :=
  ⟨faceProps_ltb_by_idx.2.2.2.2.1 faceGenA faceIdx1 (by decide),
   faceProps_ltb_by_idx.2.2.1 faceGenA faceIdx1⟩

/-- Claim C10: the two-argument constructor assigns only next and face,
leaving twin at its pre-existing indeterminate value; the default
constructor assigns no field at all; and a freshly constructed record can
have any twin value, so twin symmetry is not established by
construction. -/
theorem edgeProps_ctor_assignments :
    (∀ mem : EdgeProps, EdgeProps.ctorDefault mem = mem) ∧
    (∀ mem n f, (EdgeProps.ctorNF mem n f).next = n ∧
      (EdgeProps.ctorNF mem n f).face = f ∧
      (EdgeProps.ctorNF mem n f).twin = mem.twin) ∧
    (∃ m1 m2 : EdgeProps, ∃ n f, EdgeProps.ctorNF m1 n f ≠ EdgeProps.ctorNF m2 n f) := by
  refine ⟨fun mem => rfl, fun mem n f => ⟨rfl, rfl, rfl⟩, ⟨⟨0, 0, 0⟩, ⟨0, 1, 0⟩, 5, 9, by decide⟩⟩

end Ocl
